import Mathlib

/-!
Verification of the weighted test evaluator in `src/evaluation.cpp`.

The C++ program defines:
  * `reference_solution` : sums the elements of a `std::vector<int>` with a
    C-style indexed loop over a 32-bit `int` accumulator;
  * `evaluate` : builds three hard-coded test vectors with weights 10, 30, 60,
    runs a candidate function and the reference on each, and accumulates
    `(candidate_score, max_score)`;
  * `solution_func` : the sample candidate, which always returns 0.

Machine integers (`int`, 32-bit two's complement) are modelled as `Int`
normalized into the interval `[-2^31, 2^31)` by `toInt32`; additions that the
C++ code performs on `int` values that could wrap are modelled by `wrapAdd32`.
The score accumulation in `evaluate` stays below 100 in absolute value, far
from any 32-bit boundary, so it is modelled with plain `Int` addition.
-/

namespace Evaluation

/-- Normalization of a mathematical integer into the 32-bit two's-complement
range `[-2^31, 2^31)`: `2147483648 = 2^31`, `4294967296 = 2^32`. -/
def toInt32 (x : Int) : Int :=
  (x + 2147483648) % 4294967296 - 2147483648

/-- Addition of two 32-bit `int` values with two's-complement wraparound. -/
def wrapAdd32 (a b : Int) : Int :=
  toInt32 (a + b)

/-- Embedding of `reference_solution` (src/evaluation.cpp, lines 49-55):
`int sum = 0; for (i = 0; i < input_vector.size(); i++) sum += input_vector[i];
return sum;`.  The loop over indices `0 .. size-1` is the fold over
`List.range input_vector.length`, and `sum += input_vector[i]` is a 32-bit
`int` addition, hence `wrapAdd32`. -/
def reference_solution (input_vector : List Int) : Int :=
  (List.range input_vector.length).foldl
    (fun sum i => wrapAdd32 sum (input_vector.getD i 0)) 0

/-- Test case 1 of `evaluate`: the empty vector. -/
def test_vector_1 : List Int := []

/-- Test case 2 of `evaluate`: the short list `{1, 2, 3, 4, 5, -6, -7}`. -/
def test_vector_2 : List Int := [1, 2, 3, 4, 5, -6, -7]

/-- Test case 3 of `evaluate`: `std::vector<int> large_test_vector(100000, 7);
large_test_vector.push_back(-7654321);`. -/
def test_vector_3 : List Int := List.replicate 100000 7 ++ [-7654321]

/-- The `test_vectors` list built by the three `push_back` calls in
`evaluate` (src/evaluation.cpp, lines 65-76). -/
def test_vectors : List (List Int) := [test_vector_1, test_vector_2, test_vector_3]

/-- The `test_values` (weights) list built in `evaluate`:
10, 30 and 60 percent of the total score. -/
def test_values : List Int := [10, 30, 60]

/-- Embedding of `evaluate` (src/evaluation.cpp, lines 64-89): for each index
`i` into the test tables, compare `candidate_solution(test_vector)` with
`reference_solution(test_vector)` for exact equality, add `pass * test_value`
to the candidate score and `test_value` to the maximum score, and return the
pair `(candidate_score, max_score)`. -/
def evaluate (candidate_solution : List Int → Int) : Int × Int :=
  (List.range test_vectors.length).foldl
    (fun acc i =>
      let test_vector := test_vectors.getD i []
      let test_value := test_values.getD i 0
      let pass : Int :=
        if candidate_solution test_vector = reference_solution test_vector then 1 else 0
      (acc.1 + pass * test_value, acc.2 + test_value))
    (0, 0)

/-- Embedding of the sample candidate `solution_func`
(src/evaluation.cpp, lines 42-44): it always returns 0. -/
def solution_func (_input_vector : List Int) : Int := 0

/-- Instrumented variant of `evaluate`: the same fold as `evaluate`, but each
invocation of the candidate is recorded by appending its argument to a trace.
The source calls `candidate_solution(test_vector)` at exactly one place, once
per loop iteration, so the trace lists the candidate invocations in order. -/
def evaluateTraced (candidate_solution : List Int → Int) :
    (Int × Int) × List (List Int) :=
  (List.range test_vectors.length).foldl
    (fun acc i =>
      let test_vector := test_vectors.getD i []
      let test_value := test_values.getD i 0
      let candidate_output := candidate_solution test_vector
      let pass : Int :=
        if candidate_output = reference_solution test_vector then 1 else 0
      ((acc.1.1 + pass * test_value, acc.1.2 + test_value),
       acc.2 ++ [test_vector]))
    ((0, 0), [])

/-- Spec-side description of the reference oracle, taken from the spec's words
("the fold of wrapping 32-bit addition over the list starting from 0"). -/
def wrapping_sum_spec (l : List Int) : Int :=
  l.foldl (fun a b => toInt32 (a + b)) 0

/-- Spec-side description of the achieved score from §8 of the spec:
the sum of the weights of exactly those test cases on which the candidate's
output equals the reference output. -/
def matching_weight_sum (candidate : List Int → Int) : Int :=
  (((test_vectors.zip test_values).filter
      (fun p => decide (candidate p.1 = reference_solution p.1))).map Prod.snd).sum

/-! ### Basic lemmas about the embedding -/

/-- A C-style indexed loop over a list is the left fold over the list. -/
theorem foldl_range_getD {α β : Type} (d : β) (g : α → β → α) :
    ∀ (l : List β) (a : α),
      (List.range l.length).foldl (fun s i => g s (l.getD i d)) a = l.foldl g a := by
  intro l
  induction l with
  | nil => intro a; rfl
  | cons x t ih =>
      intro a
      rw [List.length_cons, List.range_succ_eq_map, List.foldl_cons, List.foldl_map]
      simp only [List.getD_cons_zero, List.getD_cons_succ]
      exact ih (g a x)

/-- Normalizing the left summand before a wrapping addition does not change
the wrapped result. -/
theorem toInt32_add_left (a b : Int) : toInt32 (toInt32 a + b) = toInt32 (a + b) := by
  unfold toInt32
  omega

/-- Folding `wrapAdd32` over a list starting from a normalized accumulator
computes the normalized mathematical sum. -/
theorem foldl_wrapAdd32 (l : List Int) :
    ∀ a : Int, l.foldl wrapAdd32 (toInt32 a) = toInt32 (a + l.sum) := by
  induction l with
  | nil => intro a; simp
  | cons x t ih =>
      intro a
      rw [List.foldl_cons]
      have h1 : wrapAdd32 (toInt32 a) x = toInt32 (a + x) := toInt32_add_left a x
      rw [h1, ih (a + x)]
      rw [List.sum_cons]
      ring_nf

/-- The reference oracle returns the normalized mathematical sum of its input. -/
theorem reference_solution_eq_toInt32_sum (l : List Int) :
    reference_solution l = toInt32 l.sum := by
  unfold reference_solution
  rw [foldl_range_getD 0 wrapAdd32 l 0]
  have h0 : (0 : Int) = toInt32 0 := by decide
  rw [h0, foldl_wrapAdd32 l 0]
  norm_num

/-- Value of the reference oracle on test case 1 (the empty vector). -/
theorem reference_value_1 : reference_solution test_vector_1 = 0 := by decide

/-- Value of the reference oracle on test case 2. -/
theorem reference_value_2 : reference_solution test_vector_2 = 2 := by decide

/-- Value of the reference oracle on test case 3:
`100000 * 7 - 7654321 = -6954321`, which lies inside the 32-bit range. -/
theorem reference_value_3 : reference_solution test_vector_3 = -6954321 := by
  rw [reference_solution_eq_toInt32_sum]
  have hs : test_vector_3.sum = -6954321 := by
    unfold test_vector_3
    rw [List.sum_append, List.sum_replicate]
    norm_num
  rw [hs]
  decide

/-- Closed form of `evaluate`: unrolling the three-iteration loop.  The
second component is the total weight `0 + 10 + 30 + 60 = 100`. -/
theorem evaluate_eq_cases (f : List Int → Int) :
    evaluate f =
      (0 + (if f test_vector_1 = reference_solution test_vector_1 then (1 : Int) else 0) * 10
         + (if f test_vector_2 = reference_solution test_vector_2 then (1 : Int) else 0) * 30
         + (if f test_vector_3 = reference_solution test_vector_3 then (1 : Int) else 0) * 60,
       100) := rfl

/-! ### Claims -/

/-- C1: for every candidate function, the achieved score returned by
`evaluate` equals the sum of the weights of exactly those test cases on which
the candidate's output equals the reference oracle's output on the same
input. -/
theorem C1_achieved_score_is_matching_weight_sum (f : List Int → Int) :
    (evaluate f).1 = matching_weight_sum f := by
  by_cases h1 : f test_vector_1 = reference_solution test_vector_1 <;>
  by_cases h2 : f test_vector_2 = reference_solution test_vector_2 <;>
  by_cases h3 : f test_vector_3 = reference_solution test_vector_3 <;>
  simp [evaluate_eq_cases, matching_weight_sum, test_vectors, test_values,
    List.filter, h1, h2, h3]

/-- C2: for every candidate function, the `max_score` returned by `evaluate`
equals the sum of all test-case weights, which is `10 + 30 + 60 = 100`,
independently of the candidate's behavior. -/
theorem C2_max_score_is_total_weight (f : List Int → Int) :
    (evaluate f).2 = test_values.sum ∧ test_values.sum = 100 := by
  refine ⟨?_, by decide⟩
  rw [evaluate_eq_cases]
  rfl

/-- C4: for every candidate function, the pair returned by `evaluate`
satisfies `0 ≤ achieved_score ≤ max_score`. -/
theorem C4_score_bounds (f : List Int → Int) :
    0 ≤ (evaluate f).1 ∧ (evaluate f).1 ≤ (evaluate f).2 := by
  rw [evaluate_eq_cases]
  by_cases h1 : f test_vector_1 = reference_solution test_vector_1 <;>
  by_cases h2 : f test_vector_2 = reference_solution test_vector_2 <;>
  by_cases h3 : f test_vector_3 = reference_solution test_vector_3 <;>
  simp [h1, h2, h3]

/-- C5: a candidate extensionally equal to the reference oracle scores
exactly the maximum: `evaluate` returns `(100, 100)` on it. -/
theorem C5_reference_equal_candidate_scores_max (f : List Int → Int)
    (h : ∀ l, f l = reference_solution l) :
    evaluate f = (100, 100) := by
  rw [evaluate_eq_cases]
  simp [h]

/-- Witness for C5 at the concrete candidate `reference_solution` itself:
`evaluate(reference_solution)` returns `(100, 100)`. -/
theorem C5_witness : evaluate reference_solution = (100, 100) :=
  C5_reference_equal_candidate_scores_max reference_solution (fun _ => rfl)

/-- C6: the reference oracle computes, for every input list, the fold of
wrapping 32-bit two's-complement addition over the list starting from 0. -/
theorem C6_reference_is_wrapping_fold (l : List Int) :
    reference_solution l = wrapping_sum_spec l := by
  unfold reference_solution
  rw [foldl_range_getD 0 wrapAdd32 l 0]
  rfl

/-- C7: the candidate that returns 0 on every input scores exactly 10 out of
100; only the empty test case matches the reference output. -/
theorem C7_constant_zero_scores_ten :
    evaluate solution_func = (10, 100) := by
  rw [evaluate_eq_cases]
  simp [solution_func, reference_value_1, reference_value_2, reference_value_3]

/-- C8: `evaluate` is deterministic and stateless.  The embedding is a pure
function of the candidate (the source mutates no state that survives a call),
so two successive calls with the same candidate are two applications of the
same function to the same argument; we prove the stronger statement that the
result depends only on the candidate's input-output behavior. -/
theorem C8_deterministic_in_candidate (f g : List Int → Int)
    (h : ∀ l, f l = g l) : evaluate f = evaluate g := by
  rw [evaluate_eq_cases, evaluate_eq_cases]
  simp [h]

/-- Witness for C8 at two concrete, definitionally distinct candidates with
the same behavior. -/
theorem C8_witness : evaluate solution_func = evaluate (fun _ => (0 : Int)) :=
  C8_deterministic_in_candidate solution_func (fun _ => (0 : Int)) (fun _ => rfl)

/-- C9: during one call of `evaluate`, the candidate is invoked exactly once
per test case — three invocations total — in the fixed list order: the empty
list, then the 7-element list, then the 100001-element list.  The trace of
`evaluateTraced` records the argument of each candidate invocation, and its
result component coincides with `evaluate`. -/
theorem C9_candidate_invocations_in_order (f : List Int → Int) :
    (evaluateTraced f).2 = [test_vector_1, test_vector_2, test_vector_3] ∧
    (evaluateTraced f).1 = evaluate f := by
  exact ⟨rfl, rfl⟩

/-- C10: for every candidate function, the achieved score is one of the eight
subset sums of the weight multiset `{10, 30, 60}`. -/
theorem C10_achieved_is_subset_sum (f : List Int → Int) :
    (evaluate f).1 ∈ ([0, 10, 30, 40, 60, 70, 90, 100] : List Int) := by
  rw [evaluate_eq_cases]
  by_cases h1 : f test_vector_1 = reference_solution test_vector_1 <;>
  by_cases h2 : f test_vector_2 = reference_solution test_vector_2 <;>
  by_cases h3 : f test_vector_3 = reference_solution test_vector_3 <;>
  simp [h1, h2, h3]

/-- C3 counterexample: the claim's stated reference outputs are wrong for the
second and third test inputs.  On `[1,2,3,4,5,-6,-7]` the reference returns
`2`, not `-8`; on the large input it returns `-6954321`, not `692345679`. -/
theorem C3_counterexample :
    reference_solution test_vector_2 = 2 ∧ (2 : Int) ≠ -8 ∧
    reference_solution test_vector_3 = -6954321 ∧ (-6954321 : Int) ≠ 692345679 :=
  ⟨reference_value_2, by decide, reference_value_3, by decide⟩

/-- C3 amended: the reference oracle's outputs on the three fixed test inputs
— the empty list, `[1,2,3,4,5,-6,-7]`, and 100000 copies of 7 followed by
-7654321 — are `0`, `2`, and `-6954321` respectively. -/
theorem C3_amended_reference_values :
    reference_solution test_vector_1 = 0 ∧
    reference_solution test_vector_2 = 2 ∧
    reference_solution test_vector_3 = -6954321 :=
  ⟨reference_value_1, reference_value_2, reference_value_3⟩

end Evaluation
